import Mathlib

/-!
Verification development for the CleanMate file organiser
(`src/cleanmate.py`).  The Python source is shallowly embedded below:
pure helper functions become Lean functions over strings and lists, the
filesystem becomes an explicit `FS` value threaded through the pipeline,
and the fallible operating-system calls (directory creation, move,
sidecar write) are driven by boolean oracles collected in an `Env`
record, together with an oracle for `re.search`.  Text is modelled at
character granularity (Python reads decoded text, so the embedding's
`String` plays the role of the decoded byte stream).
-/

/-- `pathlib.PurePath.suffix` for a final path component: the substring
from the last dot onwards, or `""` when the name has no dot, starts
with its only dot, or ends in its last dot. -/
def pySuffix (name : String) : String :=
  let cs := name.toList
  if cs.contains '.' then
    let i := cs.length - 1 - cs.reverse.indexOf '.'
    if 0 < i ∧ i < cs.length - 1 then String.mk (cs.drop i) else ""
  else ""

/-- `pathlib.PurePath.stem`: the name with `pySuffix` removed. -/
def pyStem (name : String) : String :=
  name.dropRight (pySuffix name).length

/-- Helper for `pySplit`: scan the characters, `acc` holding the
current word reversed. -/
def splitWsAux : List Char → List Char → List String
  | [], acc => if acc.isEmpty then [] else [String.mk acc.reverse]
  | c :: cs, acc =>
    if c.isWhitespace then
      if acc.isEmpty then splitWsAux cs []
      else String.mk acc.reverse :: splitWsAux cs []
    else splitWsAux cs (c :: acc)

/-- Python `str.split()` with no separator: split on whitespace runs,
discarding empty pieces. -/
def pySplit (s : String) : List String :=
  splitWsAux s.toList []

/-- Python `str.lower()` (per-character lowering). -/
def pyLower (s : String) : String :=
  String.mk (s.toList.map Char.toLower)

/-- Python `f.read(n)` on an opened text file: the first `n` characters
of the decoded text. -/
def pyReadChars (s : String) (n : Nat) : String :=
  String.mk (s.toList.take n)

/-- Python `' '.join(ws)`. -/
def joinSpace (ws : List String) : String :=
  String.mk (((ws.map String.toList).intersperse [' ']).flatten)

/-- Python's `needle in hay` substring test. -/
def strContains (hay needle : String) : Bool :=
  (List.range (hay.toList.length + 1)).any
    (fun i => needle.toList.isPrefixOf (hay.toList.drop i))

/-- Python truthiness of an optional string: `None` and `""` are falsy. -/
def pyTruthy : Option String → Bool
  | none => false
  | some s => !s.isEmpty

/-- `os.path.join` for a relative second component. -/
def joinPath (a b : String) : String := a ++ "/" ++ b

/-- A regular file in the modelled filesystem.  `content` is its decoded
text, `sizeBytes` the value `os.path.getsize` reports, and `readOk`
records whether opening/reading it succeeds (false injects the read
failure that `summarize_file_content` catches). -/
structure PyFile where
  dir : String
  name : String
  content : String
  sizeBytes : Nat
  readOk : Bool
deriving DecidableEq

/-- The `stats` dictionary of `organize_files`, field per key. -/
structure Stats where
  total_files_processed : Nat
  files_organized : Nat
  files_summarized : Nat
  smart_folders_created : Nat
  errors : Nat
deriving DecidableEq

def zeroStats : Stats := ⟨0, 0, 0, 0, 0⟩

/-- The modelled filesystem: a flat list of regular files (each knowing
its directory) plus the set of existing directories. -/
structure FS where
  files : List PyFile
  dirs : List String
deriving DecidableEq

/-- Ambient-world oracles: the semantics of `re.search`, failure
injection for `os.makedirs`, `shutil.move` and the sidecar `open`/
`write`, and the wall-clock string used in the sidecar file. -/
structure Env where
  search : String → String → Bool
  mkdirFails : String → Bool
  moveFails : String → Bool
  writeFails : String → Bool
  now : String

/-- The configuration dictionary consumed by `organize_files`.  The
category table is an ordered association list, mirroring Python's
insertion-ordered dict. -/
structure Config where
  source_directories : List String
  destination_directory : String
  file_categories : List (String × List String)
  ignore_patterns : List String
  summarize_extensions : List String
  max_file_size_for_summary_mb : Nat
  organize_by_content : Bool
  smart_rename : Bool
  create_summary_file : Bool
deriving DecidableEq

/-- `DEFAULT_CONFIG` from `cleanmate.py` (lines 34-60). -/
def DEFAULT_CONFIG : Config where
  source_directories := ["~/Desktop", "~/Downloads"]
  destination_directory := "~/CleanMate/Organized"
  file_categories := [
    ("Documents", [".pdf", ".docx", ".doc", ".txt", ".rtf", ".odt"]),
    ("Images", [".jpg", ".jpeg", ".png", ".gif", ".bmp", ".tiff", ".webp"]),
    ("Videos", [".mp4", ".mov", ".avi", ".mkv", ".wmv", ".flv"]),
    ("Audio", [".mp3", ".wav", ".aac", ".flac", ".ogg"]),
    ("Code", [".py", ".js", ".html", ".css", ".java", ".cpp", ".c", ".go", ".rb", ".php"]),
    ("Archives", [".zip", ".rar", ".tar", ".gz", ".7z"]),
    ("Presentations", [".ppt", ".pptx", ".key"]),
    ("Spreadsheets", [".xls", ".xlsx", ".csv", ".numbers"]),
    ("PDFs", [".pdf"])]
  ignore_patterns := ["^\\.", "^~\\$", "^Thumbs\\.db$", "^desktop\\.ini$"]
  summarize_extensions := [".pdf", ".txt", ".docx"]
  max_file_size_for_summary_mb := 10
  organize_by_content := true
  smart_rename := true
  create_summary_file := true

/-- `should_ignore_file` (lines 83-88): true when some pattern matches
somewhere in the filename.  `search` is the semantics of `re.search`. -/
def should_ignore_file (search : String → String → Bool)
    (filename : String) (ignore_patterns : List String) : Bool :=
  ignore_patterns.any (fun pattern => search pattern filename)

/-- `get_file_category` (lines 90-98): first category, in declared
order, whose extension list contains the lowercased suffix; `"Other"`
when none does. -/
def get_file_category (file_path : PyFile)
    (categories : List (String × List String)) : String :=
  match categories.find?
      (fun c => c.2.contains (pyLower (pySuffix file_path.name))) with
  | some c => c.1
  | none => "Other"

/-- `summarize_file_content` (lines 100-147).  The size test
`size/1048576 > cap` is stated without the float division as
`cap * 1048576 < size` (exact for real division); note the code reads
the cap from the module-level `DEFAULT_CONFIG`, not from the run's
configuration.  `f.read(1000)` reads the first 1000 characters of the
decoded text. -/
def summarize_file_content (file_path : PyFile) : Option String :=
  let extension := pyLower (pySuffix file_path.name)
  if !([".pdf", ".txt", ".docx"].contains extension) then none
  else if DEFAULT_CONFIG.max_file_size_for_summary_mb * 1024 * 1024
            < file_path.sizeBytes then none
  else if extension == ".txt" then
    if file_path.readOk then
      let content := pyReadChars file_path.content 1000
      let words := pySplit content
      if 20 < words.length then
        some ("This document contains text about "
          ++ joinSpace (words.take 3)
          ++ "... and is " ++ toString words.length ++ " words long.")
      else
        some ("Short document containing: " ++ content)
    else some "This is a text document."
  else if extension == ".pdf" then some "This is a PDF document."
  else if extension == ".docx" then some "This is a Word document."
  else some ("This is a " ++ extension ++ " file.")

/-- `suggest_folder_name` (lines 149-190).  Python's `if not summary`
is falsy for both `None` and the empty string. -/
def suggest_folder_name (file_path : PyFile) (summary : Option String) :
    Option String :=
  match summary with
  | none => none
  | some s =>
    if s.isEmpty then none
    else
      let words := pySplit s
      let extension := pyLower (pySuffix file_path.name)
      if strContains s "PDF" then some "PDF Documents"
      else if strContains s "Word" then some "Word Documents"
      else if strContains (pyLower s) "text" then
        let important_words := words.filter (fun w =>
          decide (4 < w.length) &&
          !(["document", "contains", "about", "words", "long", "this",
             "that"].contains (pyLower w)))
        match important_words with
        | w :: _ => some w
        | [] => some "Text Documents"
      else if extension == ".pdf" then some "PDF Documents"
      else if extension == ".docx" then some "Word Documents"
      else if extension == ".txt" then some "Text Documents"
      else some "Other Documents"

/-- `os.makedirs(d, exist_ok=True)` on the modelled filesystem
(success case). -/
def makedirs (fs : FS) (d : String) : FS :=
  if fs.dirs.contains d then fs else { fs with dirs := fs.dirs ++ [d] }

/-- The files `os.walk(source_dir)` discovers: every file whose
directory is the source directory or lies strictly below it. -/
def walkFiles (fs : FS) (source_dir : String) : List PyFile :=
  fs.files.filter (fun f =>
    f.dir == source_dir || (source_dir ++ "/").isPrefixOf f.dir)

/-- `shutil.move(file, target_dir/name)`: the source entry disappears,
any file already at the target path is overwritten. -/
def moveFile (fs : FS) (f : PyFile) (target_dir : String) : FS :=
  { fs with files :=
      ((fs.files.erase f).filter (fun g =>
          !(g.dir == target_dir && g.name == f.name)))
        ++ [{ f with dir := target_dir }] }

/-- `open(path, 'w')` followed by writes: create/overwrite a file. -/
def writeNewFile (fs : FS) (d name content : String) : FS :=
  { fs with files :=
      (fs.files.filter (fun g => !(g.dir == d && g.name == name)))
        ++ [{ dir := d, name := name, content := content,
              sizeBytes := content.length, readOk := true }] }

/-- The `summary` local of the loop body (lines 234-241): only computed
when `organize_by_content` holds and the lowered suffix is in the run
configuration's `summarize_extensions`. -/
def pipelineSummary (config : Config) (f : PyFile) : Option String :=
  if config.organize_by_content
      && config.summarize_extensions.contains (pyLower (pySuffix f.name))
  then summarize_file_content f else none

/-- The `smart_folder` local (lines 245-247): only computed when the
summary is truthy and `smart_rename` holds. -/
def pipelineSmartFolder (config : Config) (f : PyFile) : Option String :=
  if pyTruthy (pipelineSummary config f) && config.smart_rename
  then suggest_folder_name f (pipelineSummary config f) else none

/-- The final `target_dir` of the loop body (lines 231, 249). -/
def pipelineTargetDir (config : Config) (dest_dir : String) (f : PyFile) :
    String :=
  let category := get_file_category f config.file_categories
  match pipelineSmartFolder config f with
  | some sf =>
      if sf.isEmpty then joinPath dest_dir category
      else joinPath (joinPath dest_dir category) sf
  | none => joinPath dest_dir category

/-- One iteration of the inner loop of `organize_files`
(lines 219-272): counter updates, the ignore short-circuit, and the
try/except whose handler adds one to `errors` and keeps going.  A
failing step leaves the filesystem effects of the earlier steps in
place, exactly as an exception would in the Python body. -/
def processOne (config : Config) (env : Env) (dest_dir : String)
    (acc : Stats × FS) (f : PyFile) : Stats × FS :=
  let stats := { acc.1 with
    total_files_processed := acc.1.total_files_processed + 1 }
  let fs := acc.2
  if should_ignore_file env.search f.name config.ignore_patterns then
    (stats, fs)
  else
    let summary := pipelineSummary config f
    let smart_folder := pipelineSmartFolder config f
    let stats := if pyTruthy summary then
        { stats with files_summarized := stats.files_summarized + 1 }
      else stats
    let stats := if pyTruthy smart_folder then
        { stats with
            smart_folders_created := stats.smart_folders_created + 1 }
      else stats
    let target_dir := pipelineTargetDir config dest_dir f
    if !fs.dirs.contains target_dir && env.mkdirFails target_dir then
      ({ stats with errors := stats.errors + 1 }, fs)
    else
      let fs := makedirs fs target_dir
      if env.moveFails (joinPath target_dir f.name) then
        ({ stats with errors := stats.errors + 1 }, fs)
      else
        let fs := moveFile fs f target_dir
        let stats := { stats with
          files_organized := stats.files_organized + 1 }
        if config.create_summary_file && pyTruthy summary then
          let sname := pyStem f.name ++ "_summary.txt"
          if env.writeFails (joinPath target_dir sname) then
            ({ stats with errors := stats.errors + 1 }, fs)
          else
            (stats, writeNewFile fs target_dir sname
              ("Summary of " ++ f.name ++ ":\n\n" ++ summary.getD ""
                ++ "\n" ++ "\nOrganized on: " ++ env.now))
        else (stats, fs)

/-- `organize_files` (lines 192-274).  The destination directory is
created up front outside any try/except, so its failure aborts the run
(`Except.error`); each existing source directory is walked and every
discovered file goes through `processOne`. -/
def organize_files (config : Config) (env : Env) (fs : FS) :
    Except Unit (Stats × FS) :=
  let dest_dir := config.destination_directory
  if !fs.dirs.contains dest_dir && env.mkdirFails dest_dir then
    .error ()
  else
    .ok (config.source_directories.foldl
      (fun acc source_dir =>
        if acc.2.dirs.contains source_dir then
          (walkFiles acc.2 source_dir).foldl
            (processOne config env dest_dir) acc
        else acc)
      (zeroStats, makedirs fs dest_dir))

example : pySuffix "notes.txt" = ".txt" := by decide
example : pySuffix ".DS_Store" = "" := by decide
example : pySuffix "archive.tar.gz" = ".gz" := by decide
example : pySuffix "file." = "" := by decide
example : pyStem "notes.txt" = "notes" := by decide
example : pySplit "  hello   world " = ["hello", "world"] := by decide
example : strContains "This is a PDF document." "PDF" = true := by decide
example : strContains "hello" "PDF" = false := by decide

/-! ## Helper lemmas -/

theorem foldl_preserve {α β : Type} (P : α → Prop) (g : α → β → α)
    (hg : ∀ a b, P a → P (g a b)) :
    ∀ (l : List β) (a : α), P a → P (l.foldl g a) := by
  intro l
  induction l with
  | nil => intro a ha; exact ha
  | cons b t ih => intro a ha; exact ih _ (hg a b ha)

theorem makedirs_files (fs : FS) (d : String) :
    (makedirs fs d).files = fs.files := by
  unfold makedirs; split <;> rfl

theorem makedirs_contains_self (fs : FS) (d : String) :
    (makedirs fs d).dirs.contains d = true := by
  unfold makedirs
  split
  · assumption
  · simp

theorem makedirs_of_contains (fs : FS) (d : String)
    (h : fs.dirs.contains d = true) : makedirs fs d = fs := by
  unfold makedirs; rw [if_pos h]

theorem walkFiles_congr (fs gs : FS) (d : String)
    (h : fs.files = gs.files) : walkFiles fs d = walkFiles gs d := by
  unfold walkFiles; rw [h]

/-- The per-file statistics bounds preserved by every loop iteration. -/
def statsOk (s : Stats) : Prop :=
  s.files_organized ≤ s.total_files_processed
  ∧ s.errors ≤ s.total_files_processed
  ∧ s.smart_folders_created ≤ s.files_summarized

theorem processOne_skip (cfg : Config) (env : Env) (dest_dir : String)
    (stats : Stats) (fs : FS) (f : PyFile)
    (h : should_ignore_file env.search f.name cfg.ignore_patterns = true) :
    processOne cfg env dest_dir (stats, fs) f =
      ({ stats with
          total_files_processed := stats.total_files_processed + 1 }, fs) := by
  simp [processOne, h]

theorem smartFolder_falsy (cfg : Config) (f : PyFile)
    (h : pyTruthy (pipelineSummary cfg f) = false) :
    pyTruthy (pipelineSmartFolder cfg f) = false := by
  unfold pipelineSmartFolder
  rw [h]
  simp [pyTruthy]

theorem processOne_statsOk (cfg : Config) (env : Env) (dest_dir : String)
    (acc : Stats × FS) (f : PyFile) (hacc : statsOk acc.1) :
    statsOk (processOne cfg env dest_dir acc f).1 := by
  obtain ⟨stats, fs⟩ := acc
  simp only [statsOk] at hacc ⊢
  by_cases hig : should_ignore_file env.search f.name cfg.ignore_patterns = true
  · rw [processOne_skip _ _ _ _ _ _ hig]
    dsimp only
    omega
  · have hig' : should_ignore_file env.search f.name cfg.ignore_patterns
        = false := by simpa using hig
    by_cases hsum : pyTruthy (pipelineSummary cfg f) = true
    · simp only [processOne, hig', Bool.false_eq_true, if_false, hsum, if_true]
      split_ifs <;> (try dsimp only) <;> omega
    · have hsum' : pyTruthy (pipelineSummary cfg f) = false := by
        simpa using hsum
      have hsf := smartFolder_falsy cfg f hsum'
      simp only [processOne, hig', Bool.false_eq_true, if_false, hsum', hsf]
      split_ifs <;> (try dsimp only) <;> omega

/-! ## Claim theorems -/

/-- C1 (amended): every successful run's final statistics satisfy
`organized ≤ totalProcessed`, `errors ≤ totalProcessed` and
`smartFoldersUsed ≤ summarized`, and a file skipped by the ignore
filter contributes only to `totalProcessed`, to neither `organized`
nor `errors` (the spec's stronger `organized + errors ≤ totalProcessed`
fails: a sidecar-write failure increments both counters for one file,
see the counterexample). -/
theorem organize_files_stats_bounds (cfg : Config) (env : Env) (fs : FS)
    (stats : Stats) (fs' : FS)
    (h : organize_files cfg env fs = .ok (stats, fs')) :
    stats.files_organized ≤ stats.total_files_processed
    ∧ stats.errors ≤ stats.total_files_processed
    ∧ stats.smart_folders_created ≤ stats.files_summarized
    ∧ (∀ (s : Stats) (g : FS) (f : PyFile),
        should_ignore_file env.search f.name cfg.ignore_patterns = true →
        processOne cfg env cfg.destination_directory (s, g) f
          = ({ s with
              total_files_processed := s.total_files_processed + 1 }, g)) := by
  have hOk : statsOk stats := by
    simp only [organize_files] at h
    split at h
    · exact absurd h (by simp)
    · simp only [Except.ok.injEq] at h
      have hfold := foldl_preserve (fun acc : Stats × FS => statsOk acc.1)
        (fun acc source_dir =>
          if acc.2.dirs.contains source_dir then
            (walkFiles acc.2 source_dir).foldl
              (processOne cfg env cfg.destination_directory) acc
          else acc)
        (fun acc d hacc => by
          dsimp only
          split
          · exact foldl_preserve _ _
              (fun a b ha => processOne_statsOk cfg env _ a b ha) _ _ hacc
          · exact hacc)
        cfg.source_directories (zeroStats, makedirs fs cfg.destination_directory)
        ⟨Nat.le_refl 0, Nat.le_refl 0, Nat.le_refl 0⟩
      rw [h] at hfold
      exact hfold
  exact ⟨hOk.1, hOk.2.1, hOk.2.2,
    fun s g f hig => processOne_skip cfg env _ s g f hig⟩

/-! ## Concrete sample inputs -/

def notesTxt : PyFile :=
  { dir := "~/Desktop", name := "notes.txt", content := "hello world",
    sizeBytes := 11, readOk := true }

def okEnv : Env :=
  { search := fun _ _ => false, mkdirFails := fun _ => false,
    moveFails := fun _ => false, writeFails := fun _ => false,
    now := "2026-01-01 00:00:00" }

/-- Like `okEnv` but every sidecar-summary write raises. -/
def failWriteEnv : Env :=
  { search := fun _ _ => false, mkdirFails := fun _ => false,
    moveFails := fun _ => false, writeFails := fun _ => true,
    now := "2026-01-01 00:00:00" }

def oneFS : FS :=
  { files := [notesTxt], dirs := ["~/Desktop", "~/CleanMate/Organized"] }

def oneCfg : Config :=
  { DEFAULT_CONFIG with source_directories := ["~/Desktop"] }

/-- The filesystem after the successful one-file run of `oneCfg`. -/
def organizedFS : FS :=
  { files := [
      { dir := "~/CleanMate/Organized/Documents/Text Documents",
        name := "notes.txt", content := "hello world",
        sizeBytes := 11, readOk := true },
      { dir := "~/CleanMate/Organized/Documents/Text Documents",
        name := "notes_summary.txt",
        content := "Summary of notes.txt:\n\nShort document containing: hello world\n\nOrganized on: 2026-01-01 00:00:00",
        sizeBytes := 96, readOk := true }],
    dirs := ["~/Desktop", "~/CleanMate/Organized",
             "~/CleanMate/Organized/Documents/Text Documents"] }

/-- The final statistics of a run, when it completes. -/
def runStats (c : Config) (e : Env) (f : FS) : Option Stats :=
  (organize_files c e f).toOption.map Prod.fst

/-- C1 counterexample: a single `.txt` file whose sidecar-summary write
fails.  The move already incremented `organized`, the exception handler
then increments `errors`, so the run ends with `organized = errors =
totalProcessed = 1` and `organized + errors = 2 > 1 = totalProcessed`,
refuting the claimed invariant. -/
theorem C1_counterexample :
    runStats oneCfg failWriteEnv oneFS = some ⟨1, 1, 1, 1, 1⟩
    ∧ ¬ (1 + 1 ≤ (1 : Nat)) := by
  exact ⟨by decide, by decide⟩

/-- C1 witness: the bounds instantiated on a concrete successful
one-file run whose final statistics are `⟨1, 1, 1, 1, 0⟩`. -/
theorem C1_witness :
    (⟨1, 1, 1, 1, 0⟩ : Stats).files_organized
        ≤ (⟨1, 1, 1, 1, 0⟩ : Stats).total_files_processed
    ∧ (⟨1, 1, 1, 1, 0⟩ : Stats).errors
        ≤ (⟨1, 1, 1, 1, 0⟩ : Stats).total_files_processed
    ∧ (⟨1, 1, 1, 1, 0⟩ : Stats).smart_folders_created
        ≤ (⟨1, 1, 1, 1, 0⟩ : Stats).files_summarized :=
  ⟨(organize_files_stats_bounds oneCfg okEnv oneFS ⟨1, 1, 1, 1, 0⟩
      organizedFS (by rfl)).1,
   (organize_files_stats_bounds oneCfg okEnv oneFS ⟨1, 1, 1, 1, 0⟩
      organizedFS (by rfl)).2.1,
   (organize_files_stats_bounds oneCfg okEnv oneFS ⟨1, 1, 1, 1, 0⟩
      organizedFS (by rfl)).2.2.1⟩

/-- C2 counterexample: for the single processed file the sidecar write
(step 7) fails, `errors` is incremented — yet `files_organized` was
already incremented after the successful move, refuting "the organized
counter is incremented only on success of all of those steps". -/
theorem C2_counterexample :
    should_ignore_file failWriteEnv.search notesTxt.name
        oneCfg.ignore_patterns = false
    ∧ (processOne oneCfg failWriteEnv "~/CleanMate/Organized"
        (zeroStats, oneFS) notesTxt).1 = ⟨1, 1, 1, 1, 1⟩ := by decide

/-- C2 (amended): for every non-ignored file, one loop iteration always
terminates with `totalProcessed` up by exactly one (processing
continues with the next file); `errors` grows by at most one, and by
exactly one if and only if some step failed — the directory creation,
the move, or an attempted sidecar-summary write; `organized` is
incremented exactly when directory creation and the move (steps 3-6)
succeed; a failing sidecar write (step 7) after a successful move
increments `errors` while `organized` remains incremented, and
conversely both counters grow only in that situation. -/
theorem processOne_error_discipline (cfg : Config) (env : Env)
    (dest_dir : String) (stats : Stats) (fs : FS) (f : PyFile)
    (h : should_ignore_file env.search f.name cfg.ignore_patterns = false) :
    (processOne cfg env dest_dir (stats, fs) f).1.total_files_processed
        = stats.total_files_processed + 1
    ∧ ((processOne cfg env dest_dir (stats, fs) f).1.errors = stats.errors
        ∨ (processOne cfg env dest_dir (stats, fs) f).1.errors
            = stats.errors + 1)
    ∧ ((processOne cfg env dest_dir (stats, fs) f).1.files_organized
          = stats.files_organized + 1 ↔
        ((!fs.dirs.contains (pipelineTargetDir cfg dest_dir f)
            && env.mkdirFails (pipelineTargetDir cfg dest_dir f)) = false
         ∧ env.moveFails
             (joinPath (pipelineTargetDir cfg dest_dir f) f.name) = false))
    ∧ ((processOne cfg env dest_dir (stats, fs) f).1.errors = stats.errors + 1
        ∧ (processOne cfg env dest_dir (stats, fs) f).1.files_organized
            = stats.files_organized + 1 →
        cfg.create_summary_file = true
        ∧ pyTruthy (pipelineSummary cfg f) = true
        ∧ env.writeFails (joinPath (pipelineTargetDir cfg dest_dir f)
            (pyStem f.name ++ "_summary.txt")) = true)
    ∧ ((processOne cfg env dest_dir (stats, fs) f).1.errors
          = stats.errors + 1 ↔
        ((!fs.dirs.contains (pipelineTargetDir cfg dest_dir f)
            && env.mkdirFails (pipelineTargetDir cfg dest_dir f)) = true
         ∨ env.moveFails
             (joinPath (pipelineTargetDir cfg dest_dir f) f.name) = true
         ∨ ((cfg.create_summary_file
              && pyTruthy (pipelineSummary cfg f)) = true
            ∧ env.writeFails (joinPath (pipelineTargetDir cfg dest_dir f)
                (pyStem f.name ++ "_summary.txt")) = true)))
    ∧ (((!fs.dirs.contains (pipelineTargetDir cfg dest_dir f)
            && env.mkdirFails (pipelineTargetDir cfg dest_dir f)) = false
        ∧ env.moveFails
            (joinPath (pipelineTargetDir cfg dest_dir f) f.name) = false
        ∧ (cfg.create_summary_file
            && pyTruthy (pipelineSummary cfg f)) = true
        ∧ env.writeFails (joinPath (pipelineTargetDir cfg dest_dir f)
            (pyStem f.name ++ "_summary.txt")) = true) →
        (processOne cfg env dest_dir (stats, fs) f).1.errors
            = stats.errors + 1
        ∧ (processOne cfg env dest_dir (stats, fs) f).1.files_organized
            = stats.files_organized + 1) := by
  simp only [processOne, h, Bool.false_eq_true, if_false]
  split_ifs <;> (try dsimp only) <;> simp_all

/-- C2 witness: the error-discipline theorem applied to the concrete
non-ignored file `notes.txt`, once under the all-succeeding environment
(counting clause) and once under the failing-sidecar-write environment
(step-7 clause: `errors` and `organized` both end up incremented). -/
theorem C2_witness :
    (processOne oneCfg okEnv "~/CleanMate/Organized"
        (zeroStats, oneFS) notesTxt).1.total_files_processed
      = zeroStats.total_files_processed + 1
    ∧ ((processOne oneCfg failWriteEnv "~/CleanMate/Organized"
          (zeroStats, oneFS) notesTxt).1.errors = zeroStats.errors + 1
       ∧ (processOne oneCfg failWriteEnv "~/CleanMate/Organized"
          (zeroStats, oneFS) notesTxt).1.files_organized
         = zeroStats.files_organized + 1) :=
  ⟨(processOne_error_discipline oneCfg okEnv "~/CleanMate/Organized"
      zeroStats oneFS notesTxt (by decide)).1,
   (processOne_error_discipline oneCfg failWriteEnv "~/CleanMate/Organized"
      zeroStats oneFS notesTxt (by decide)).2.2.2.2.2
     ⟨by decide, by decide, by decide, by decide⟩⟩

/-- C3: for a `.txt` file within the size cap, `summarize_file_content`
reads the first 1000 characters of the decoded text (decode errors
ignored; the byte/character distinction is below the granularity of
this text model), splits them into whitespace-delimited words, and
returns the long-document sentence for more than 20 words, the
`"Short document containing: "` form otherwise, and the fixed fallback
`"This is a text document."` when reading fails, never an error. -/
theorem summarize_txt_spec (f : PyFile)
    (hext : pyLower (pySuffix f.name) = ".txt")
    (hsize : f.sizeBytes
        ≤ DEFAULT_CONFIG.max_file_size_for_summary_mb * 1024 * 1024) :
    (f.readOk = true → 20 < (pySplit (pyReadChars f.content 1000)).length →
        summarize_file_content f
          = some ("This document contains text about "
              ++ joinSpace ((pySplit (pyReadChars f.content 1000)).take 3)
              ++ "... and is "
              ++ toString (pySplit (pyReadChars f.content 1000)).length
              ++ " words long."))
    ∧ (f.readOk = true → (pySplit (pyReadChars f.content 1000)).length ≤ 20 →
        summarize_file_content f
          = some ("Short document containing: "
              ++ pyReadChars f.content 1000))
    ∧ (f.readOk = false →
        summarize_file_content f = some "This is a text document.") := by
  have hnot : ¬ (DEFAULT_CONFIG.max_file_size_for_summary_mb * 1024 * 1024
      < f.sizeBytes) := by omega
  refine ⟨fun hr hw => ?_, fun hr hw => ?_, fun hr => ?_⟩
  · simp [summarize_file_content, hext, hnot, hr, hw]
  · have hw' : ¬ (20 < (pySplit (pyReadChars f.content 1000)).length) :=
      Nat.not_lt.mpr hw
    simp [summarize_file_content, hext, hnot, hr, hw']
  · simp [summarize_file_content, hext, hnot, hr]

/-- C3 witness: the short-document branch on the concrete file
`notes.txt` containing `"hello world"`. -/
theorem C3_witness :
    summarize_file_content notesTxt
      = some ("Short document containing: "
          ++ pyReadChars notesTxt.content 1000) :=
  (summarize_txt_spec notesTxt (by decide) (by decide)).2.1 rfl (by decide)

/-- C4 counterexample: a run configuration capping summaries at 5 MB
and a 6 MB `.txt` file.  The claim requires `summarize` to return
nothing, but the code compares against the module-level
`DEFAULT_CONFIG` cap of 10 MB and produces a summary. -/
theorem C4_counterexample :
    ({ DEFAULT_CONFIG with
        max_file_size_for_summary_mb := 5 }).max_file_size_for_summary_mb
          * 1024 * 1024
      < (⟨"~/Desktop", "big.txt", "hello", 6 * 1024 * 1024, true⟩
          : PyFile).sizeBytes
    ∧ summarize_file_content
        (⟨"~/Desktop", "big.txt", "hello", 6 * 1024 * 1024, true⟩ : PyFile)
      = some "Short document containing: hello" := by
  exact ⟨by decide, by decide⟩

/-- C4 (amended): a file whose size exceeds the default configuration's
10 MB cap — the cap the code actually consults, independent of the run
configuration — is never summarized, whatever its extension; the
outcome is `none`, not an error. -/
theorem summarize_oversized_none (f : PyFile)
    (h : DEFAULT_CONFIG.max_file_size_for_summary_mb * 1024 * 1024
        < f.sizeBytes) :
    summarize_file_content f = none := by
  simp only [summarize_file_content]
  split <;> rfl

/-- C4 witness: an 11 MB `.txt` file is not summarized. -/
theorem C4_witness :
    summarize_file_content
      (⟨"~/Desktop", "huge.txt", "words", 11 * 1024 * 1024, true⟩ : PyFile)
      = none :=
  summarize_oversized_none _ (by decide)

theorem find?_first_match {α : Type} (p : α → Bool) :
    ∀ (pre : List α) (c : α) (post : List α),
      (∀ c' ∈ pre, p c' = false) → p c = true →
      (pre ++ c :: post).find? p = some c := by
  intro pre
  induction pre with
  | nil =>
    intro c post _ hc
    simpa using List.find?_cons_of_pos _ hc
  | cons hd tl ih =>
    intro c post hpre hc
    have hhd : p hd = false := hpre hd (List.mem_cons_self hd tl)
    rw [List.cons_append, List.find?_cons_of_neg _ (by simp [hhd]),
      ih c post (fun c' hm => hpre c' (List.mem_cons_of_mem hd hm)) hc]

theorem find?_unique_match {α : Type} (p : α → Bool) :
    ∀ (l : List α) (c : α), c ∈ l → p c = true →
      (∀ c' ∈ l, p c' = true → c' = c) → l.find? p = some c := by
  intro l
  induction l with
  | nil => intro c hc _ _; exact absurd hc (List.not_mem_nil c)
  | cons hd tl ih =>
    intro c hc hp hu
    by_cases hhd : p hd = true
    · have heq : hd = c := hu hd (List.mem_cons_self hd tl) hhd
      rw [List.find?_cons_of_pos _ hhd, heq]
    · rw [List.find?_cons_of_neg _ (by simpa using hhd)]
      have hc' : c ∈ tl := by
        rcases List.mem_cons.mp hc with h | h
        · exact absurd (h ▸ hp) hhd
        · exact h
      exact ih c hc' hp
        (fun c' hm hpc => hu c' (List.mem_cons_of_mem hd hm) hpc)

/-- C5: `get_file_category` lowercases the path's extension and returns
the first category, in declared order, whose extension set contains it
(so an extension in exactly one category's set yields that category's
name), and `"Other"` when no category's set contains it. -/
theorem get_file_category_spec (f : PyFile)
    (cats : List (String × List String)) :
    (∀ pre c post, cats = pre ++ c :: post →
        (∀ c' ∈ pre, c'.2.contains (pyLower (pySuffix f.name)) = false) →
        c.2.contains (pyLower (pySuffix f.name)) = true →
        get_file_category f cats = c.1)
    ∧ (∀ c ∈ cats, c.2.contains (pyLower (pySuffix f.name)) = true →
        (∀ c' ∈ cats, c'.2.contains (pyLower (pySuffix f.name)) = true →
          c' = c) →
        get_file_category f cats = c.1)
    ∧ ((∀ c ∈ cats, c.2.contains (pyLower (pySuffix f.name)) = false) →
        get_file_category f cats = "Other") := by
  refine ⟨?_, ?_, ?_⟩
  · intro pre c post hcats hpre hc
    unfold get_file_category
    rw [hcats, find?_first_match _ pre c post hpre hc]
  · intro c hc hp hu
    unfold get_file_category
    rw [find?_unique_match _ cats c hc hp hu]
  · intro hall
    unfold get_file_category
    rw [List.find?_eq_none.mpr (fun x hx => by simpa using hall x hx)]

def photoJpg : PyFile :=
  { dir := "~/Desktop", name := "photo.jpg", content := "",
    sizeBytes := 3, readOk := true }

/-- C5 witness: `.jpg` lives in exactly one category's extension set,
and `photo.jpg` is categorized as `"Images"`. -/
theorem C5_witness :
    get_file_category photoJpg DEFAULT_CONFIG.file_categories
      = "Images" :=
  (get_file_category_spec photoJpg DEFAULT_CONFIG.file_categories).2.1
    ("Images", [".jpg", ".jpeg", ".png", ".gif", ".bmp", ".tiff", ".webp"])
    (by decide) (by decide) (by decide)

/-- C6 counterexample: for the summary `""` (present but empty) none of
the `"PDF"`/`"Word"`/`"text"` branches applies and the path's extension
is `.txt`, so the claim's extension fallback requires
`some "Text Documents"` — but the code's falsy test `if not summary`
returns `none`. -/
theorem C6_counterexample :
    strContains "" "PDF" = false
    ∧ strContains "" "Word" = false
    ∧ strContains (pyLower "") "text" = false
    ∧ pyLower (pySuffix notesTxt.name) = ".txt"
    ∧ suggest_folder_name notesTxt (some "") = none := by decide

/-- C6 (amended): `suggest_folder_name` returns nothing when the summary
is absent or is the empty string; a summary containing `"PDF"` yields
`"PDF Documents"` regardless of the extension, else `"Word"` yields
`"Word Documents"`, else a case-insensitive `"text"` yields the first
word of the summary longer than 4 characters whose lowercase form is
outside the stop-set (in its original casing, `"Text Documents"` when
no such word exists), and otherwise the extension decides the name. -/
theorem suggest_folder_name_spec (f : PyFile) (s : String) :
    (suggest_folder_name f none = none)
    ∧ (suggest_folder_name f (some "") = none)
    ∧ (s ≠ "" → strContains s "PDF" = true →
        suggest_folder_name f (some s) = some "PDF Documents")
    ∧ (s ≠ "" → strContains s "PDF" = false → strContains s "Word" = true →
        suggest_folder_name f (some s) = some "Word Documents")
    ∧ (s ≠ "" → strContains s "PDF" = false → strContains s "Word" = false →
        strContains (pyLower s) "text" = true →
        suggest_folder_name f (some s)
          = some (((pySplit s).filter (fun w => decide (4 < w.length)
              && !(["document", "contains", "about", "words", "long",
                    "this", "that"].contains (pyLower w)))).headD
              "Text Documents"))
    ∧ (s ≠ "" → strContains s "PDF" = false → strContains s "Word" = false →
        strContains (pyLower s) "text" = false →
        suggest_folder_name f (some s)
          = some (if pyLower (pySuffix f.name) == ".pdf" then
                "PDF Documents"
              else if pyLower (pySuffix f.name) == ".docx" then
                "Word Documents"
              else if pyLower (pySuffix f.name) == ".txt" then
                "Text Documents"
              else "Other Documents")) := by
  refine ⟨rfl, rfl, ?_, ?_, ?_, ?_⟩ <;> intro hs
  all_goals
    have hne : s.isEmpty = false := by
      rw [Bool.eq_false_iff]
      intro h
      exact hs ((String.isEmpty_iff s).mp h)
  · intro h1
    simp [suggest_folder_name, hne, h1]
  · intro h1 h2
    simp [suggest_folder_name, hne, h1, h2]
  · intro h1 h2 h3
    simp only [suggest_folder_name, hne, h1, h2, h3, Bool.false_eq_true,
      if_false, if_true]
    cases hfl : (pySplit s).filter (fun w => decide (4 < w.length)
        && !(["document", "contains", "about", "words", "long",
              "this", "that"].contains (pyLower w))) with
    | nil => simp
    | cons a l => simp
  · intro h1 h2 h3
    simp only [suggest_folder_name, hne, h1, h2, h3, Bool.false_eq_true,
      if_false]
    split_ifs <;> rfl

def reportDocx : PyFile :=
  { dir := "~/Desktop", name := "report.docx", content := "",
    sizeBytes := 4, readOk := true }

/-- C6 witness: a summary containing `"PDF"` yields `"PDF Documents"`
even though the path's extension is `.docx`. -/
theorem C6_witness :
    suggest_folder_name reportDocx (some "This is a PDF document.")
      = some "PDF Documents" :=
  (suggest_folder_name_spec reportDocx "This is a PDF document.").2.2.1
    (by decide) (by decide)

/-- C7: `should_ignore_file` returns true exactly when some pattern in
the list matches somewhere in the filename (under the `re.search`
semantics `search`), and the empty pattern list ignores nothing. -/
theorem should_ignore_file_iff (search : String → String → Bool)
    (filename : String) (patterns : List String) :
    (should_ignore_file search filename patterns = true ↔
      ∃ p ∈ patterns, search p filename = true)
    ∧ should_ignore_file search filename [] = false := by
  constructor
  · simp [should_ignore_file, List.any_eq_true]
  · rfl

/-- C8: the pipeline's handling of a file matching an ignore pattern:
`totalProcessed` is incremented and nothing else changes — the
filesystem is untouched (no directory creation, no move, no sidecar
write) and no other counter moves. -/
theorem processOne_ignored_frame (cfg : Config) (env : Env)
    (dest_dir : String) (stats : Stats) (fs : FS) (f : PyFile)
    (h : should_ignore_file env.search f.name cfg.ignore_patterns = true) :
    processOne cfg env dest_dir (stats, fs) f =
      ({ stats with
          total_files_processed := stats.total_files_processed + 1 },
        fs) :=
  processOne_skip cfg env dest_dir stats fs f h

def dsStore : PyFile :=
  { dir := "~/Desktop", name := ".DS_Store", content := "",
    sizeBytes := 0, readOk := true }

/-- An environment whose `re.search` oracle matches the hidden-file
pattern `"^\\."` against names that start with a dot. -/
def dotEnv : Env :=
  { search := fun p n =>
      p == "^\\." && (n.toList.headD ' ' == '.'),
    mkdirFails := fun _ => false, moveFails := fun _ => false,
    writeFails := fun _ => false, now := "2026-01-01 00:00:00" }

/-- C8 witness: `.DS_Store` is skipped, counted once, and the
filesystem is left exactly as it was. -/
theorem C8_witness :
    processOne DEFAULT_CONFIG dotEnv "~/CleanMate/Organized"
      (zeroStats, oneFS) dsStore =
      ({ zeroStats with total_files_processed := 1 }, oneFS) :=
  processOne_ignored_frame DEFAULT_CONFIG dotEnv "~/CleanMate/Organized"
    zeroStats oneFS dsStore (by decide)

theorem fold_no_files (cfg : Config) (env : Env) (dest_dir : String) :
    ∀ (dirs : List String) (s : Stats) (g : FS),
      (∀ d ∈ dirs, walkFiles g d = []) →
      dirs.foldl (fun acc source_dir =>
        if acc.2.dirs.contains source_dir then
          (walkFiles acc.2 source_dir).foldl
            (processOne cfg env dest_dir) acc
        else acc) (s, g) = (s, g) := by
  intro dirs
  induction dirs with
  | nil => intro s g _; rfl
  | cons d tl ih =>
    intro s g h
    have hd : walkFiles g d = [] := h d (List.mem_cons_self d tl)
    simp only [List.foldl_cons]
    have hstep : (if (s, g).2.dirs.contains d then
        (walkFiles (s, g).2 d).foldl (processOne cfg env dest_dir) (s, g)
      else (s, g)) = (s, g) := by
      split
      · rw [show walkFiles (s, g).2 d = [] from hd]
        rfl
      · rfl
    rw [hstep]
    exact ih s g (fun d' hm => h d' (List.mem_cons_of_mem d hm))

/-- C9: on a source tree with no files, a run completes with all
counters zero, the destination tree's files are unchanged (at most the
destination directory entry is created), and a second run in that
state returns the very same statistics and filesystem — running twice
changes nothing. -/
theorem organize_files_empty_source (cfg : Config) (env : Env) (fs : FS)
    (hsrc : ∀ d ∈ cfg.source_directories, walkFiles fs d = [])
    (hmk : fs.dirs.contains cfg.destination_directory = true
        ∨ env.mkdirFails cfg.destination_directory = false) :
    organize_files cfg env fs
        = .ok (zeroStats, makedirs fs cfg.destination_directory)
    ∧ (makedirs fs cfg.destination_directory).files = fs.files
    ∧ organize_files cfg env (makedirs fs cfg.destination_directory)
        = .ok (zeroStats, makedirs fs cfg.destination_directory) := by
  have hfiles : (makedirs fs cfg.destination_directory).files = fs.files :=
    makedirs_files fs cfg.destination_directory
  have hwalk : ∀ d ∈ cfg.source_directories,
      walkFiles (makedirs fs cfg.destination_directory) d = [] := by
    intro d hd
    rw [walkFiles_congr _ fs _ hfiles]
    exact hsrc d hd
  have hcond : (!fs.dirs.contains cfg.destination_directory
      && env.mkdirFails cfg.destination_directory) = false := by
    rcases hmk with h | h
    · rw [h]
      rfl
    · rw [h, Bool.and_false]
  refine ⟨?_, hfiles, ?_⟩
  · simp only [organize_files, hcond, Bool.false_eq_true, if_false]
    rw [fold_no_files cfg env _ cfg.source_directories zeroStats _ hwalk]
  · have hcond2 : (!(makedirs fs cfg.destination_directory).dirs.contains
        cfg.destination_directory
        && env.mkdirFails cfg.destination_directory) = false := by
      rw [makedirs_contains_self]
      rfl
    simp only [organize_files, hcond2, Bool.false_eq_true, if_false]
    rw [makedirs_of_contains _ _ (makedirs_contains_self fs _)]
    rw [fold_no_files cfg env _ cfg.source_directories zeroStats _ hwalk]

def emptySrcFS : FS := { files := [], dirs := ["~/Desktop"] }

/-- C9 witness: the default configuration over an empty source tree. -/
theorem C9_witness :
    organize_files DEFAULT_CONFIG okEnv emptySrcFS
        = .ok (zeroStats, makedirs emptySrcFS "~/CleanMate/Organized")
    ∧ (makedirs emptySrcFS "~/CleanMate/Organized").files
        = emptySrcFS.files
    ∧ organize_files DEFAULT_CONFIG okEnv
        (makedirs emptySrcFS "~/CleanMate/Organized")
        = .ok (zeroStats, makedirs emptySrcFS "~/CleanMate/Organized") :=
  organize_files_empty_source DEFAULT_CONFIG okEnv emptySrcFS
    (by decide) (Or.inr rfl)

theorem default_find_ne_pdfs (ext : String) :
    (match DEFAULT_CONFIG.file_categories.find?
        (fun c => c.2.contains ext) with
     | some c => c.1
     | none => "Other") ≠ "PDFs" := by
  by_cases hpdf : ext = ".pdf"
  · subst hpdf; decide
  · intro hres
    cases hfind : DEFAULT_CONFIG.file_categories.find?
        (fun c => c.2.contains ext) with
    | none =>
      rw [hfind] at hres
      exact absurd hres (by decide)
    | some c =>
      rw [hfind] at hres
      have hp := List.find?_some hfind
      have hmem := List.mem_of_find?_eq_some hfind
      simp only [DEFAULT_CONFIG, List.mem_cons, List.not_mem_nil,
        or_false] at hmem
      rcases hmem with h1|h1|h1|h1|h1|h1|h1|h1|h1 <;> subst h1 <;>
        simp only at hres hp
      all_goals first
      | exact absurd hres (by decide)
      | · simp only [List.contains_cons, List.contains_nil,
            Bool.or_false] at hp
          exact hpdf ((beq_iff_eq).mp hp)

/-- C10: in the default category table `.pdf` is listed both under
`"Documents"` and under `"PDFs"`; since resolution takes the first
matching category in declared order, every path whose lowercased
extension is `.pdf` is categorized as `"Documents"`, and no input
whatsoever is ever categorized as `"PDFs"`. -/
theorem default_pdf_shadowing :
    (("Documents", [".pdf", ".docx", ".doc", ".txt", ".rtf", ".odt"])
        ∈ DEFAULT_CONFIG.file_categories
      ∧ [".pdf", ".docx", ".doc", ".txt", ".rtf", ".odt"].contains ".pdf"
          = true)
    ∧ (("PDFs", [".pdf"]) ∈ DEFAULT_CONFIG.file_categories
      ∧ [".pdf"].contains ".pdf" = true)
    ∧ (∀ f : PyFile, pyLower (pySuffix f.name) = ".pdf" →
        get_file_category f DEFAULT_CONFIG.file_categories = "Documents")
    ∧ (∀ f : PyFile,
        get_file_category f DEFAULT_CONFIG.file_categories ≠ "PDFs") := by
  refine ⟨by decide, by decide, ?_, ?_⟩
  · intro f hext
    unfold get_file_category
    rw [hext]
    decide
  · intro f
    exact default_find_ne_pdfs (pyLower (pySuffix f.name))

def reportPdf : PyFile :=
  { dir := "~/Desktop", name := "Report.PDF", content := "",
    sizeBytes := 5, readOk := true }

/-- C10 witness: `Report.PDF` (lowercased extension `.pdf`) lands in
`"Documents"`, never in `"PDFs"`. -/
theorem C10_witness :
    get_file_category reportPdf DEFAULT_CONFIG.file_categories
        = "Documents"
    ∧ get_file_category reportPdf DEFAULT_CONFIG.file_categories
        ≠ "PDFs" :=
  ⟨default_pdf_shadowing.2.2.1 reportPdf (by decide),
   default_pdf_shadowing.2.2.2 reportPdf⟩
